import Mathlib

/-!
Shallow embedding of `src/js/main.js`, the single script of the
Rock-Paper-Scissors repository (Piedra, Papel o Tijera).

Modelling decisions:
- The global mutable state of the script (the `estadisticas` object, the
  two `localStorage` slots, and the DOM attributes touched by the theme
  code) is gathered in an explicit `AppState`; each JS function becomes a
  Lean function from state to state.
- `localStorage` stores strings; the script only ever writes
  `JSON.stringify(estadisticas)` to the statistics key and the literal
  tokens to the theme key.  The statistics slot is modelled at the JSON
  value level (`Json` below): the string layer `JSON.stringify`/`JSON.parse`
  is the host's exact inverse pair and is external to this program.
- `Math.random` is modelled by passing the computer's drawn option
  (`elegirComputadora`) as an explicit argument.
- DOM rendering of the counters and the history list (`actualizarUI`) is
  projection-only and is not part of any claim; the DOM state kept here is
  what the theme functions read and write (the `dark` class on `body`,
  its two inline colors, and the toggle button label).
-/

/-- One entry of `estadisticas.historial`:
`{usuario: string, computadora: string, resultado: string}`. -/
structure Registro where
  usuario : String
  computadora : String
  resultado : String
deriving DecidableEq

/-- The `estadisticas` object of `main.js`. -/
structure Estadisticas where
  rondas : Nat
  usuario : Nat
  computadora : Nat
  empates : Nat
  historial : List Registro
deriving DecidableEq

/-- The initial value given to the global `estadisticas` at script load. -/
def estadisticasIniciales : Estadisticas :=
  { rondas := 0, usuario := 0, computadora := 0, empates := 0, historial := [] }

/-- The option list of `jugarRonda`: `["piedra", "papel", "tijera"]`. -/
def opciones : List String := ["piedra", "papel", "tijera"]

/-- The `resultadoTipo` value computed by the branch of `jugarRonda`:
equal choices give `"Empate"`; the three listed winning pairs give
`"Ganaste"`; anything else falls to the `else` branch, `"Perdiste"`. -/
def resultadoTipo (elegirUsuario elegirComputadora : String) : String :=
  if elegirUsuario = elegirComputadora then "Empate"
  else if (elegirUsuario = "piedra" ∧ elegirComputadora = "tijera")
      ∨ (elegirUsuario = "papel" ∧ elegirComputadora = "piedra")
      ∨ (elegirUsuario = "tijera" ∧ elegirComputadora = "papel") then "Ganaste"
  else "Perdiste"

/-- The statistics mutation performed by `jugarRonda`: the branch that
increments exactly one outcome counter, the unconditional `rondas++`, the
`unshift` of the new record, and the `pop` when the history exceeds 5. -/
def rondaEstadisticas (elegirUsuario elegirComputadora : String)
    (estadisticas : Estadisticas) : Estadisticas :=
  let conContador :=
    if elegirUsuario = elegirComputadora then
      { estadisticas with empates := estadisticas.empates + 1 }
    else if (elegirUsuario = "piedra" ∧ elegirComputadora = "tijera")
        ∨ (elegirUsuario = "papel" ∧ elegirComputadora = "piedra")
        ∨ (elegirUsuario = "tijera" ∧ elegirComputadora = "papel") then
      { estadisticas with usuario := estadisticas.usuario + 1 }
    else
      { estadisticas with computadora := estadisticas.computadora + 1 }
  let conRonda := { conContador with rondas := conContador.rondas + 1 }
  let registro : Registro :=
    { usuario := elegirUsuario, computadora := elegirComputadora,
      resultado := resultadoTipo elegirUsuario elegirComputadora }
  let historial2 := registro :: conRonda.historial
  { conRonda with
      historial := if historial2.length > 5 then historial2.dropLast else historial2 }

/-- JSON values, as produced by `JSON.stringify` and consumed by
`JSON.parse`.  Object fields are kept in order. -/
inductive Json where
  | null
  | bool (b : Bool)
  | num (n : Nat)
  | str (s : String)
  | arr (xs : List Json)
  | obj (fields : List (String × Json))

/-- The JSON value `JSON.stringify` produces for one history record. -/
def encodeRegistro (r : Registro) : Json :=
  .obj [("usuario", .str r.usuario), ("computadora", .str r.computadora),
        ("resultado", .str r.resultado)]

/-- Reading one history record back from its JSON value. -/
def decodeRegistro : Json → Option Registro
  | .obj [("usuario", .str u), ("computadora", .str c), ("resultado", .str r)] =>
      some { usuario := u, computadora := c, resultado := r }
  | _ => none

/-- Reading a history list back from its JSON values. -/
def decodeHistorial : List Json → Option (List Registro)
  | [] => some []
  | j :: js =>
      match decodeRegistro j, decodeHistorial js with
      | some r, some rs => some (r :: rs)
      | _, _ => none

/-- The JSON value `JSON.stringify(estadisticas)` produces. -/
def encodeEstadisticas (e : Estadisticas) : Json :=
  .obj [("rondas", .num e.rondas), ("usuario", .num e.usuario),
        ("computadora", .num e.computadora), ("empates", .num e.empates),
        ("historial", .arr (e.historial.map encodeRegistro))]

/-- Reading an `Estadisticas` object back from its JSON value. -/
def decodeEstadisticas : Json → Option Estadisticas
  | .obj [("rondas", .num r), ("usuario", .num u), ("computadora", .num c),
          ("empates", .num emp), ("historial", .arr h)] =>
      match decodeHistorial h with
      | some hist =>
          some { rondas := r, usuario := u, computadora := c, empates := emp,
                 historial := hist }
      | none => none
  | _ => none

/-- The two `localStorage` slots the script uses: key
`juegoPiedraPapelTijeraStat` (a serialized `Estadisticas`) and key
`juegoPiedraPapelTijeraTheme` (a plain string token).  `none` is an absent
key (`getItem` returns `null`). -/
structure Storage where
  stat : Option Json
  theme : Option String

/-- JS truthiness of a `getItem` result: `null` and the empty string are
falsy, every other string is truthy. -/
def jsTruthy : Option String → Bool
  | none => false
  | some s => !(s == "")

/-- The pieces of the DOM the theme functions read and write: whether
`body.classList` contains `dark`, the two inline colors, and the text of
the toggle button label. -/
structure Dom where
  dark : Bool
  backgroundColor : String
  color : String
  etiquetaTema : String

/-- The whole mutable state of the script: the global `estadisticas`
object, `localStorage`, and the themed DOM attributes. -/
structure AppState where
  estadisticas : Estadisticas
  storage : Storage
  dom : Dom

/-- Source `guardarEstadisticas`: `localStorage.setItem(STORAGE_KEY,
JSON.stringify(estadisticas))`. -/
def guardarEstadisticas (s : AppState) : AppState :=
  { s with storage :=
      { s.storage with stat := some (encodeEstadisticas s.estadisticas) } }

/-- Source `cargarEstadisticas`: if `getItem(STORAGE_KEY)` is truthy, replace the
global `estadisticas` with the parse of the stored value.  The source
applies no validation to the parsed value; a stored value that is not the
serialization of an `Estadisticas` is undefined behavior there (spec §7)
and is modelled as leaving the state unchanged. -/
def cargarEstadisticas (s : AppState) : AppState :=
  match s.storage.stat with
  | none => s
  | some j => { s with estadisticas := (decodeEstadisticas j).getD s.estadisticas }

/-- Source `jugarRonda`, with the computer's random draw passed explicitly:
mutate `estadisticas` (counters, history) then `guardarEstadisticas`.
The `actualizarUI` repaint has no effect on the modelled state. -/
def jugarRonda (elegirUsuario elegirComputadora : String) (s : AppState) : AppState :=
  guardarEstadisticas
    { s with estadisticas := rondaEstadisticas elegirUsuario elegirComputadora s.estadisticas }

/-- A sequence of rounds: each element is the pair
(user choice, computer draw). -/
def jugarRondas (rondas : List (String × String)) (s : AppState) : AppState :=
  rondas.foldl (fun s p => jugarRonda p.1 p.2 s) s

/-- Source `reiniciarResultados`: overwrite the global `estadisticas` with the
all-zero value, then `guardarEstadisticas` (the confirmation message and
the repaint touch no modelled state). -/
def reiniciarResultados (s : AppState) : AppState :=
  guardarEstadisticas
    { s with estadisticas :=
        { rondas := 0, usuario := 0, computadora := 0, empates := 0, historial := [] } }

/-- Source `cargarModoOscuro`, with the `matchMedia("(prefers-color-scheme: dark)")
.matches` signal passed explicitly: dark when the stored theme is `"dark"`,
or when nothing truthy is stored and the ambient signal is dark; light
otherwise.  Afterwards the toggle label names the other mode. -/
def cargarModoOscuro (ambienteOscuro : Bool) (s : AppState) : AppState :=
  let temaOscuro := s.storage.theme
  let dom1 :=
    if temaOscuro = some "dark" ∨ (jsTruthy temaOscuro = false ∧ ambienteOscuro = true) then
      { s.dom with dark := true, backgroundColor := "#111827", color := "#f9fafb" }
    else
      { s.dom with dark := false, backgroundColor := "#f3f4f6", color := "#111827" }
  let dom2 :=
    { dom1 with etiquetaTema :=
        if dom1.dark then "Cambiar a modo claro" else "Cambiar a modo oscuro" }
  { s with dom := dom2 }

/-- Source `toggleModoOscuro`: flip the `dark` class, set the matching color pair,
persist the new token, then relabel the toggle button. -/
def toggleModoOscuro (s : AppState) : AppState :=
  let paso :=
    if s.dom.dark then
      ({ s.dom with dark := false, backgroundColor := "#f3f4f6", color := "#111827" },
       { s.storage with theme := some "light" })
    else
      ({ s.dom with dark := true, backgroundColor := "#111827", color := "#f9fafb" },
       { s.storage with theme := some "dark" })
  let dom2 :=
    { paso.1 with etiquetaTema :=
        if paso.1.dark then "Cambiar a modo claro" else "Cambiar a modo oscuro" }
  { s with dom := dom2, storage := paso.2 }

/-- Source `iniciarJuego` (the `DOMContentLoaded` handler): `cargarEstadisticas`,
repaint, `cargarModoOscuro`. -/
def iniciarJuego (ambienteOscuro : Bool) (s : AppState) : AppState :=
  cargarModoOscuro ambienteOscuro (cargarEstadisticas s)

/-- The state of a freshly loaded page before `iniciarJuego` runs: the
global `estadisticas` holds its initializer; storage and DOM are whatever
the browser provides. -/
def estadoInicial (storage : Storage) (dom : Dom) : AppState :=
  { estadisticas := estadisticasIniciales, storage := storage, dom := dom }

/-!
Helper lemmas shared by the claim theorems.
-/

/-- The counter effect of one round: `rondas` grows by exactly one, the
three outcome counters grow by exactly one in total, and each individual
counter either stays or grows by one. -/
lemma rondaEstadisticas_contadores (u c : String) (e : Estadisticas) :
    (rondaEstadisticas u c e).rondas = e.rondas + 1
    ∧ (rondaEstadisticas u c e).usuario + (rondaEstadisticas u c e).computadora
        + (rondaEstadisticas u c e).empates
      = e.usuario + e.computadora + e.empates + 1
    ∧ ((rondaEstadisticas u c e).usuario = e.usuario
        ∨ (rondaEstadisticas u c e).usuario = e.usuario + 1)
    ∧ ((rondaEstadisticas u c e).computadora = e.computadora
        ∨ (rondaEstadisticas u c e).computadora = e.computadora + 1)
    ∧ ((rondaEstadisticas u c e).empates = e.empates
        ∨ (rondaEstadisticas u c e).empates = e.empates + 1) := by
  simp only [rondaEstadisticas]
  split_ifs <;> simp <;> omega

/-- The history effect of one round, isolated: the new record goes on the
front, and the last element is dropped exactly when the grown list exceeds
five entries. -/
lemma rondaEstadisticas_historial (u c : String) (e : Estadisticas) :
    (rondaEstadisticas u c e).historial =
      if e.historial.length + 1 > 5
      then ({ usuario := u, computadora := c, resultado := resultadoTipo u c }
              :: e.historial).dropLast
      else { usuario := u, computadora := c, resultado := resultadoTipo u c }
              :: e.historial := by
  simp only [rondaEstadisticas]
  split_ifs <;> simp_all [List.length_cons]

/-- Unfolding one round of a round sequence. -/
lemma jugarRondas_cons (p : String × String) (rs : List (String × String)) (s : AppState) :
    jugarRondas (p :: rs) s = jugarRondas rs (jugarRonda p.1 p.2 s) := rfl

/-- Decoding inverts encoding on history lists. -/
lemma decodeHistorial_map_encodeRegistro (l : List Registro) :
    decodeHistorial (l.map encodeRegistro) = some l := by
  induction l with
  | nil => rfl
  | cons r rs ih => simp [decodeHistorial, encodeRegistro, decodeRegistro, ih]

/-- Decoding inverts encoding on statistics objects. -/
lemma decodeEstadisticas_encodeEstadisticas (e : Estadisticas) :
    decodeEstadisticas (encodeEstadisticas e) = some e := by
  simp [encodeEstadisticas, decodeEstadisticas, decodeHistorial_map_encodeRegistro]

/-!
The claim theorems.
-/

/-- Claim C1: starting from the all-zero statistics, after every sequence
of played rounds `usuario + computadora + empates = rondas`; moreover each
round increments `rondas` exactly once and exactly one of the three
outcome counters (each counter moves by 0 or 1 and the three together by
exactly 1). -/
theorem claim_C1_invariante_contadores :
    (∀ (rondas : List (String × String)) (storage : Storage) (dom : Dom),
      (jugarRondas rondas (estadoInicial storage dom)).estadisticas.usuario
        + (jugarRondas rondas (estadoInicial storage dom)).estadisticas.computadora
        + (jugarRondas rondas (estadoInicial storage dom)).estadisticas.empates
      = (jugarRondas rondas (estadoInicial storage dom)).estadisticas.rondas)
    ∧ (∀ (u c : String) (e : Estadisticas),
        (rondaEstadisticas u c e).rondas = e.rondas + 1
        ∧ (rondaEstadisticas u c e).usuario + (rondaEstadisticas u c e).computadora
            + (rondaEstadisticas u c e).empates
          = e.usuario + e.computadora + e.empates + 1
        ∧ ((rondaEstadisticas u c e).usuario = e.usuario
            ∨ (rondaEstadisticas u c e).usuario = e.usuario + 1)
        ∧ ((rondaEstadisticas u c e).computadora = e.computadora
            ∨ (rondaEstadisticas u c e).computadora = e.computadora + 1)
        ∧ ((rondaEstadisticas u c e).empates = e.empates
            ∨ (rondaEstadisticas u c e).empates = e.empates + 1)) := by
  constructor
  · have main : ∀ (rs : List (String × String)) (s : AppState),
        s.estadisticas.usuario + s.estadisticas.computadora + s.estadisticas.empates
          = s.estadisticas.rondas →
        (jugarRondas rs s).estadisticas.usuario + (jugarRondas rs s).estadisticas.computadora
          + (jugarRondas rs s).estadisticas.empates
          = (jugarRondas rs s).estadisticas.rondas := by
      intro rs
      induction rs with
      | nil => intro s h; exact h
      | cons p t ih =>
          intro s h
          rw [jugarRondas_cons]
          apply ih
          have hc := rondaEstadisticas_contadores p.1 p.2 s.estadisticas
          show (rondaEstadisticas p.1 p.2 s.estadisticas).usuario
              + (rondaEstadisticas p.1 p.2 s.estadisticas).computadora
              + (rondaEstadisticas p.1 p.2 s.estadisticas).empates
            = (rondaEstadisticas p.1 p.2 s.estadisticas).rondas
          omega
    intro rondas storage dom
    exact main rondas _ rfl
  · exact rondaEstadisticas_contadores

/-- Claim C2: from any statistics whose history is within the bound (as
every reachable one is), a round puts the new record at index 0; when the
grown history would exceed 5 entries exactly the oldest (last) one is
removed, otherwise nothing is removed; hence the history length stays at
most 5 — and, for reachable states, it is at most 5 after any round
sequence from the all-zero statistics. -/
theorem claim_C2_historial_acotado (u c : String) (e : Estadisticas)
    (h : e.historial.length ≤ 5) :
    (rondaEstadisticas u c e).historial.head?
      = some { usuario := u, computadora := c, resultado := resultadoTipo u c }
    ∧ (rondaEstadisticas u c e).historial.length ≤ 5
    ∧ (e.historial.length < 5 →
        (rondaEstadisticas u c e).historial
          = { usuario := u, computadora := c, resultado := resultadoTipo u c }
              :: e.historial)
    ∧ (e.historial.length = 5 →
        (rondaEstadisticas u c e).historial
          = ({ usuario := u, computadora := c, resultado := resultadoTipo u c }
              :: e.historial).dropLast)
    ∧ (∀ (rondas : List (String × String)) (storage : Storage) (dom : Dom),
        (jugarRondas rondas (estadoInicial storage dom)).estadisticas.historial.length ≤ 5) := by
  have reach : ∀ (rondas : List (String × String)) (storage : Storage) (dom : Dom),
      (jugarRondas rondas (estadoInicial storage dom)).estadisticas.historial.length ≤ 5 := by
    have main : ∀ (rs : List (String × String)) (s : AppState),
        s.estadisticas.historial.length ≤ 5 →
        (jugarRondas rs s).estadisticas.historial.length ≤ 5 := by
      intro rs
      induction rs with
      | nil => intro s h; exact h
      | cons p t ih =>
          intro s h
          rw [jugarRondas_cons]
          apply ih
          show (rondaEstadisticas p.1 p.2 s.estadisticas).historial.length ≤ 5
          rw [rondaEstadisticas_historial]
          split_ifs with hlen
          · simp only [List.length_dropLast, List.length_cons]
            omega
          · simp only [List.length_cons]
            omega
    intro rondas storage dom
    exact main rondas _ (by simp [estadoInicial, estadisticasIniciales])
  have hh := rondaEstadisticas_historial u c e
  rcases Nat.lt_or_ge e.historial.length 5 with hlt | hge
  · rw [hh, if_neg (by omega)]
    exact ⟨rfl, by simp only [List.length_cons]; omega, fun _ => rfl,
      fun h5 => by omega, reach⟩
  · have h5 : e.historial.length = 5 := le_antisymm h hge
    rw [hh, if_pos (by omega)]
    obtain ⟨a, t, hl⟩ :=
      List.exists_cons_of_ne_nil
        (l := e.historial) (by intro hnil; rw [hnil] at h5; simp at h5)
    rw [hl] at h5 ⊢
    simp only [List.length_cons] at h5
    refine ⟨by simp [List.dropLast_cons₂], ?_,
      fun hc => absurd hc (by simp only [List.length_cons]; omega),
      fun _ => rfl, reach⟩
    simp only [List.length_dropLast, List.length_cons]
    omega

/-- Claim C2, witnessed at a concrete within-bound state: playing
piedra against papel from the all-zero statistics. -/
theorem claim_C2_historial_acotado_witness :
    estadisticasIniciales.historial.length ≤ 5
    ∧ ((rondaEstadisticas "piedra" "papel" estadisticasIniciales).historial.head?
        = some { usuario := "piedra", computadora := "papel",
                 resultado := resultadoTipo "piedra" "papel" }
      ∧ (rondaEstadisticas "piedra" "papel" estadisticasIniciales).historial.length ≤ 5
      ∧ (estadisticasIniciales.historial.length < 5 →
          (rondaEstadisticas "piedra" "papel" estadisticasIniciales).historial
            = { usuario := "piedra", computadora := "papel",
                resultado := resultadoTipo "piedra" "papel" }
                :: estadisticasIniciales.historial)
      ∧ (estadisticasIniciales.historial.length = 5 →
          (rondaEstadisticas "piedra" "papel" estadisticasIniciales).historial
            = ({ usuario := "piedra", computadora := "papel",
                 resultado := resultadoTipo "piedra" "papel" }
                :: estadisticasIniciales.historial).dropLast)
      ∧ (∀ (rondas : List (String × String)) (storage : Storage) (dom : Dom),
          (jugarRondas rondas (estadoInicial storage dom)).estadisticas.historial.length ≤ 5)) :=
  ⟨by decide, claim_C2_historial_acotado "piedra" "papel" estadisticasIniciales (by decide)⟩

/-- Claim C3: for choices inside the move set, equal choices give
`"Empate"`; the user wins exactly on the cyclic pairs piedra-beats-tijera,
papel-beats-piedra, tijera-beats-papel; every other unequal pair loses. -/
theorem claim_C3_regla_resultado (u c : String) (hu : u ∈ opciones) (hc : c ∈ opciones) :
    (resultadoTipo u c = "Empate" ↔ u = c)
    ∧ (resultadoTipo u c = "Ganaste" ↔
        ((u = "piedra" ∧ c = "tijera") ∨ (u = "papel" ∧ c = "piedra")
          ∨ (u = "tijera" ∧ c = "papel")))
    ∧ (resultadoTipo u c = "Perdiste" ↔
        (u ≠ c ∧ ¬((u = "piedra" ∧ c = "tijera") ∨ (u = "papel" ∧ c = "piedra")
          ∨ (u = "tijera" ∧ c = "papel")))) := by
  simp only [opciones, List.mem_cons, List.not_mem_nil, or_false] at hu hc
  rcases hu with rfl | rfl | rfl <;> rcases hc with rfl | rfl | rfl <;> decide

/-- Claim C3, witnessed at piedra versus tijera (a user win). -/
theorem claim_C3_regla_resultado_witness :
    "piedra" ∈ opciones ∧ "tijera" ∈ opciones
    ∧ ((resultadoTipo "piedra" "tijera" = "Empate" ↔ ("piedra" : String) = "tijera")
      ∧ (resultadoTipo "piedra" "tijera" = "Ganaste" ↔
          ((("piedra" : String) = "piedra" ∧ ("tijera" : String) = "tijera")
            ∨ (("piedra" : String) = "papel" ∧ ("tijera" : String) = "piedra")
            ∨ (("piedra" : String) = "tijera" ∧ ("tijera" : String) = "papel")))
      ∧ (resultadoTipo "piedra" "tijera" = "Perdiste" ↔
          (("piedra" : String) ≠ "tijera"
            ∧ ¬((("piedra" : String) = "piedra" ∧ ("tijera" : String) = "tijera")
              ∨ (("piedra" : String) = "papel" ∧ ("tijera" : String) = "piedra")
              ∨ (("piedra" : String) = "tijera" ∧ ("tijera" : String) = "papel"))))) :=
  ⟨by decide, by decide,
    claim_C3_regla_resultado "piedra" "tijera" (by decide) (by decide)⟩

/-- Claim C4: saving the statistics and then loading restores the same
in-memory statistics value, for every state. -/
theorem claim_C4_guardar_cargar (s : AppState) :
    (cargarEstadisticas (guardarEstadisticas s)).estadisticas = s.estadisticas := by
  simp [cargarEstadisticas, guardarEstadisticas, decodeEstadisticas_encodeEstadisticas]

/-- Claim C5: resetting replaces the statistics with the all-zero value,
persists exactly the serialization of that zero value, and is idempotent. -/
theorem claim_C5_reiniciar (s : AppState) :
    (reiniciarResultados s).estadisticas = estadisticasIniciales
    ∧ (reiniciarResultados s).storage.stat
      = some (encodeEstadisticas estadisticasIniciales)
    ∧ reiniciarResultados (reiniciarResultados s) = reiniciarResultados s :=
  ⟨rfl, rfl, rfl⟩

/-- Claim C6: from either themed starting state (dark with its canonical
colors, label and persisted token, or light likewise), toggling the theme
twice restores the entire state — visual attributes and both storage
slots — exactly. -/
theorem claim_C6_toggle_involucion (es : Estadisticas) (stat : Option Json) (b : Bool) :
    toggleModoOscuro (toggleModoOscuro
      { estadisticas := es,
        storage := { stat := stat, theme := some (if b then "dark" else "light") },
        dom := if b then
            { dark := true, backgroundColor := "#111827", color := "#f9fafb",
              etiquetaTema := "Cambiar a modo claro" }
          else
            { dark := false, backgroundColor := "#f3f4f6", color := "#111827",
              etiquetaTema := "Cambiar a modo oscuro" } })
      = { estadisticas := es,
          storage := { stat := stat, theme := some (if b then "dark" else "light") },
          dom := if b then
              { dark := true, backgroundColor := "#111827", color := "#f9fafb",
                etiquetaTema := "Cambiar a modo claro" }
            else
              { dark := false, backgroundColor := "#f3f4f6", color := "#111827",
                etiquetaTema := "Cambiar a modo oscuro" } } := by
  cases b <;> simp [toggleModoOscuro]

/-- Claim C7: at bootstrap the theme resolves in order — a stored
`"dark"` gives the dark visuals and a stored `"light"` the light ones,
whatever the ambient signal; with nothing stored the ambient signal
decides; with nothing stored and a light ambient signal the default is
light. -/
theorem claim_C7_resolucion_tema :
    (∀ (stat : Option Json) (es : Estadisticas) (dom : Dom) (amb : Bool),
      (cargarModoOscuro amb
          { estadisticas := es, storage := { stat := stat, theme := some "dark" },
            dom := dom }).dom.dark = true)
    ∧ (∀ (stat : Option Json) (es : Estadisticas) (dom : Dom) (amb : Bool),
      (cargarModoOscuro amb
          { estadisticas := es, storage := { stat := stat, theme := some "light" },
            dom := dom }).dom.dark = false)
    ∧ (∀ (stat : Option Json) (es : Estadisticas) (dom : Dom) (amb : Bool),
      (cargarModoOscuro amb
          { estadisticas := es, storage := { stat := stat, theme := none },
            dom := dom }).dom.dark = amb) := by
  refine ⟨?_, ?_, ?_⟩ <;> intro stat es dom amb <;>
    cases amb <;> simp [cargarModoOscuro, jsTruthy]

/-- Claim C8: on bootstrap with an empty statistics slot the loaded state
is the all-zero statistics; with a stored serialized statistics value the
loaded state is exactly that value. -/
theorem claim_C8_estado_primer_arranque :
    (∀ (theme : Option String) (dom : Dom) (amb : Bool),
      (iniciarJuego amb (estadoInicial { stat := none, theme := theme } dom)).estadisticas
        = estadisticasIniciales)
    ∧ (∀ (e : Estadisticas) (theme : Option String) (dom : Dom) (amb : Bool),
      (iniciarJuego amb
          (estadoInicial { stat := some (encodeEstadisticas e), theme := theme }
            dom)).estadisticas
        = e) := by
  constructor
  · intro theme dom amb
    simp [iniciarJuego, cargarModoOscuro, cargarEstadisticas, estadoInicial]
  · intro e theme dom amb
    simp [iniciarJuego, cargarModoOscuro, cargarEstadisticas, estadoInicial,
      decodeEstadisticas_encodeEstadisticas]

/-- Claim C9: the theme toggle leaves the in-memory statistics and the
statistics storage slot untouched; only the DOM theme attributes and the
theme storage slot change. -/
theorem claim_C9_toggle_marco (s : AppState) :
    (toggleModoOscuro s).estadisticas = s.estadisticas
    ∧ (toggleModoOscuro s).storage.stat = s.storage.stat := by
  cases h : s.dom.dark <;> simp [toggleModoOscuro, h]

/-- Claim C10: a user input outside the move set, against any computer
draw inside it, is classified as a loss — the computer counter and the
round counter are incremented, the other counters are untouched, and the
out-of-enum input is recorded verbatim at the front of the history. -/
theorem claim_C10_entrada_fuera_enum (u c : String) (hu : u ∉ opciones)
    (hc : c ∈ opciones) (e : Estadisticas) :
    resultadoTipo u c = "Perdiste"
    ∧ (rondaEstadisticas u c e).computadora = e.computadora + 1
    ∧ (rondaEstadisticas u c e).rondas = e.rondas + 1
    ∧ (rondaEstadisticas u c e).usuario = e.usuario
    ∧ (rondaEstadisticas u c e).empates = e.empates
    ∧ (rondaEstadisticas u c e).historial.head?
      = some { usuario := u, computadora := c, resultado := "Perdiste" } := by
  have hne : u ≠ c := fun h => hu (h ▸ hc)
  have hnw : ¬((u = "piedra" ∧ c = "tijera") ∨ (u = "papel" ∧ c = "piedra")
      ∨ (u = "tijera" ∧ c = "papel")) := by
    rintro (⟨rfl, rfl⟩ | ⟨rfl, rfl⟩ | ⟨rfl, rfl⟩) <;> exact hu (by decide)
  have ht : resultadoTipo u c = "Perdiste" := by
    rw [resultadoTipo, if_neg hne, if_neg hnw]
  refine ⟨ht, ?_⟩
  simp [rondaEstadisticas, if_neg hne, if_neg hnw, ht]
  split_ifs with hlen
  · obtain ⟨a, t, hl⟩ :=
      List.exists_cons_of_ne_nil (l := e.historial)
        (by intro hnil; rw [hnil] at hlen; simp at hlen)
    rw [hl]
    simp [List.dropLast_cons₂]
  · rfl

/-- Claim C10, witnessed at the out-of-enum input lagarto against
piedra, from the all-zero statistics. -/
theorem claim_C10_entrada_fuera_enum_witness :
    "lagarto" ∉ opciones ∧ "piedra" ∈ opciones
    ∧ (resultadoTipo "lagarto" "piedra" = "Perdiste"
      ∧ (rondaEstadisticas "lagarto" "piedra" estadisticasIniciales).computadora
        = estadisticasIniciales.computadora + 1
      ∧ (rondaEstadisticas "lagarto" "piedra" estadisticasIniciales).rondas
        = estadisticasIniciales.rondas + 1
      ∧ (rondaEstadisticas "lagarto" "piedra" estadisticasIniciales).usuario
        = estadisticasIniciales.usuario
      ∧ (rondaEstadisticas "lagarto" "piedra" estadisticasIniciales).empates
        = estadisticasIniciales.empates
      ∧ (rondaEstadisticas "lagarto" "piedra" estadisticasIniciales).historial.head?
        = some { usuario := "lagarto", computadora := "piedra",
                 resultado := "Perdiste" }) :=
  ⟨by decide, by decide,
    claim_C10_entrada_fuera_enum "lagarto" "piedra" (by decide) (by decide)
      estadisticasIniciales⟩
